import Mathlib

/-!
Shallow embedding of `hubploy/auth.py`: scoped registry and cluster
authentication for gcloud, aws and azure, plus sops secret resolution.

The process environment is an association list of variables.  External
effects (config loading, subprocess exit status, the STS role-assumption
call, YAML/JSON parsing, temporary-file names) are supplied by a `World`
oracle so that each code path of the Python source becomes a total
function on it.  Generator functions driven by `contextlib.contextmanager`
are modelled by passing the protected work explicitly: the work receives
the environment at the `yield` point and reports whether it raised.
-/

namespace Hubploy

/-- The process environment (`os.environ`): an association list. -/
abbrev Env := List (String × String)

/-- `os.environ.get(k, None)`. -/
def envGet : Env → String → Option String
  | [], _ => none
  | p :: t, k => if p.1 = k then some p.2 else envGet t k

/-- `del os.environ[k]` (the deletion itself; the KeyError is handled at
`unset_env_var`). -/
def envDel : Env → String → Env
  | [], _ => []
  | p :: t, k => if p.1 = k then envDel t k else p :: envDel t k

/-- `os.environ[k] = v`. -/
def envSet (e : Env) (k v : String) : Env := (k, v) :: envDel e k

/-- Python exceptions that the embedded code can raise. -/
inductive PyError where
  /-- bare `Exception(msg)` -/
  | exc (msg : String)
  | fileNotFound (path : String)
  | keyError (key : String)
  /-- referencing a local variable before assignment -/
  | unboundLocal (name : String)
  | valueError (msg : String)
  /-- boto3 client error from `sts.assume_role` -/
  | clientError (msg : String)
  /-- `subprocess.check_call` on a failing command -/
  | calledProcessError
  /-- `contextlib.contextmanager` on a generator that never yields -/
  | runtimeError (msg : String)
  /-- a parse exception the source does not catch, such as ruamel
  ParserError, ComposerError or DuplicateKeyError -/
  | parserError (msg : String)
  /-- an exception raised by the caller-supplied protected work -/
  | workError
deriving DecidableEq, Repr

/-- The credentials triple returned by `sts.assume_role`. -/
structure Creds where
  accessKeyId : String
  secretAccessKey : String
  sessionToken : String
deriving DecidableEq, Repr

/-- Outcome of `yaml.load` / `json.load` on a file: the exception the source
catches (`ScannerError` for yaml, `JSONDecodeError` for json), a parse
failure raising any *other* exception (ruamel ParserError, ComposerError,
DuplicateKeyError, a UnicodeDecodeError, ...), which the source does not
catch and which therefore propagates, or a parsed document of which only the
presence of a top-level `sops` key matters. -/
inductive ParseOutcome where
  | parseError
  | otherError (e : PyError)
  | doc (hasSops : Bool)
deriving DecidableEq, Repr

/-- The `appId` / `tenant` / `password` triple of an Azure auth file. -/
structure AzureAuth where
  appId : String
  tenant : String
  password : String
deriving DecidableEq, Repr

/-- Parameter bag `registry { gcloud: ... }` in hubploy.yaml. -/
structure GcloudRegistry where
  project : String
  service_key : String
deriving DecidableEq, Repr

/-- Parameter bag `registry { aws: ... }` in hubploy.yaml. -/
structure AwsRegistry where
  project : String
  zone : String
  service_key : Option String := none
  role_arn : Option String := none
deriving DecidableEq, Repr

/-- Parameter bag `registry { azure: ... }` in hubploy.yaml. -/
structure AzureRegistry where
  resource_group : String
  registry : String
  auth_file : String
deriving DecidableEq, Repr

/-- Parameter bag `cluster { gcloud: ... }` in hubploy.yaml. -/
structure GcloudCluster where
  project : String
  cluster : String
  zone : String
  service_key : String
deriving DecidableEq, Repr

/-- Parameter bag `cluster { aws: ... }` in hubploy.yaml. -/
structure AwsCluster where
  project : String
  cluster : String
  zone : String
  service_key : Option String := none
  role_arn : Option String := none
deriving DecidableEq, Repr

/-- Parameter bag `cluster { azure: ... }` in hubploy.yaml. -/
structure AzureCluster where
  resource_group : String
  cluster : String
  auth_file : String
deriving DecidableEq, Repr

/-- The `images.registry` subtree of hubploy.yaml. -/
structure RegistryConfig where
  provider : Option String := none
  gcloud : Option GcloudRegistry := none
  aws : Option AwsRegistry := none
  azure : Option AzureRegistry := none
deriving Repr

/-- The `images` subtree of hubploy.yaml. -/
structure ImagesConfig where
  registry : Option RegistryConfig := none
deriving Repr

/-- The `cluster` subtree of hubploy.yaml. -/
structure ClusterConfig where
  provider : Option String := none
  gcloud : Option GcloudCluster := none
  aws : Option AwsCluster := none
  azure : Option AzureCluster := none
deriving Repr

/-- The configuration document returned by `hubploy.config.get_config`. -/
structure Config where
  images : Option ImagesConfig := none
  cluster : Option ClusterConfig := none
deriving Repr

/-- Oracle for every external effect the source performs. -/
structure World where
  /-- `hubploy.config.get_config(deployment)` -/
  getConfig : String → Config
  /-- `os.path.isfile` -/
  fileExists : String → Bool
  /-- `subprocess.check_call(cmd)` succeeded -/
  run : List String → Bool
  /-- `boto3.client("sts").assume_role(RoleArn, RoleSessionName)` -/
  stsAssumeRole : String → String → Except String Creds
  /-- `yaml.load` on the file at a path -/
  yamlParse : String → ParseOutcome
  /-- `json.load` on the file at a path -/
  jsonParse : String → ParseOutcome
  /-- `yaml.load` plus key extraction on an Azure auth file -/
  azureAuth : String → Except PyError AzureAuth
  /-- name handed out by `tempfile.NamedTemporaryFile` in `decrypt_file` -/
  sopsTmpName : String
  /-- name handed out by `tempfile.NamedTemporaryFile` in `cluster_auth` -/
  kubeTmpName : String
  /-- current working directory, for `os.path.abspath` -/
  cwd : String

/-- Python truthiness of an optional-string argument (`None` and the empty
string are falsy). -/
def truthy : Option String → Bool
  | none => false
  | some s => s ≠ ""

/-- `os.path.join("deployments", deployment, "secrets", name)`. -/
def secretPath (deployment name : String) : String :=
  "deployments/" ++ deployment ++ "/secrets/" ++ name

/-- `os.path.abspath`. -/
def abspath (w : World) (p : String) : String :=
  if p.startsWith "/" then p else w.cwd ++ "/" ++ p

/-- `os.path.splitext(path)[1]`: the extension of the last path component,
empty when the component has no dot beyond leading ones. -/
def extOf (path : String) : String :=
  let base := (path.toList.reverse.takeWhile (fun c => c != '/')).reverse
  let lead := base.takeWhile (fun c => c == '.')
  let rest := base.drop lead.length
  let suffix := (rest.reverse.takeWhile (fun c => c != '.')).reverse
  if suffix.length = rest.length then "" else String.mk ('.' :: suffix)

/-- The environment after a successful `unset_env_var`: the key is deleted,
then the old value (when there was one) is written back. -/
def restoreEnv (k : String) (old : Option String) (e : Env) : Env :=
  match old with
  | some v => envSet (envDel e k) k v
  | none => envDel e k

/-- `auth.unset_env_var`: `del os.environ[env_var]` (KeyError when the key is
absent) and then restore the old value when it is not `None`. -/
def unset_env_var (env_var : String) (old_env_var_value : Option String)
    (e : Env) : Except PyError Env :=
  match envGet e env_var with
  | none => .error (.keyError env_var)
  | some _ => .ok (restoreEnv env_var old_env_var_value e)

instance {ε α : Type} [DecidableEq ε] [DecidableEq α] :
    DecidableEq (Except ε α) := fun x y =>
  match x, y with
  | .ok a, .ok b => decidable_of_iff (a = b) (by simp)
  | .error a, .error b => decidable_of_iff (a = b) (by simp)
  | .ok _, .error _ => .isFalse (by simp)
  | .error _, .ok _ => .isFalse (by simp)

/-- Result of the `decrypt_file` context manager: the path it yields, or the
exception it raises, plus whether the external sops tool was invoked. -/
structure DecryptOutcome where
  res : Except PyError String
  sopsCalled : Bool
deriving DecidableEq, Repr

/-- `auth.decrypt_file`: dispatch on the file extension, parse, check for a
top-level `sops` key, and either yield the original path, yield a fresh
temporary file holding the sops output, or raise.  Only `ScannerError`
(yaml) and `JSONDecodeError` (json) are caught and turned into
yield-the-original-path; any other parse exception propagates.  An
unsupported extension leaves the local `encrypted_data` unassigned, so the
later membership test raises a NameError. -/
def decrypt_file (w : World) (encrypted_path : String) : DecryptOutcome :=
  let ext := extOf encrypted_path
  if ext == ".yaml" || ext == ".yml" then
    match w.yamlParse encrypted_path with
    | .parseError => { res := .ok encrypted_path, sopsCalled := false }
    | .otherError e => { res := .error e, sopsCalled := false }
    | .doc hasSops =>
      if hasSops then
        if w.run ["sops", "--output", w.sopsTmpName, "--decrypt", encrypted_path] then
          { res := .ok w.sopsTmpName, sopsCalled := true }
        else
          { res := .error .calledProcessError, sopsCalled := true }
      else
        { res := .ok encrypted_path, sopsCalled := false }
  else if ext == ".json" then
    match w.jsonParse encrypted_path with
    | .parseError => { res := .ok encrypted_path, sopsCalled := false }
    | .otherError e => { res := .error e, sopsCalled := false }
    | .doc hasSops =>
      if hasSops then
        if w.run ["sops", "--output", w.sopsTmpName, "--decrypt", encrypted_path] then
          { res := .ok w.sopsTmpName, sopsCalled := true }
        else
          { res := .error .calledProcessError, sopsCalled := true }
      else
        { res := .ok encrypted_path, sopsCalled := false }
  else
    { res := .error (.unboundLocal "encrypted_data"), sopsCalled := false }

/-- The caller-supplied protected work inside the with-block: it sees the
environment at the yield point, may transform it, and reports whether it
raised. -/
abbrev Work := Env → Env × Bool

/-- The docker `credHelpers` mapping in `~/.docker/config.json`. -/
abbrev Helpers := List (String × String)

/-- `config.setdefault("credHelpers", {})[registry] = helper`: replace or add
one entry, keeping all others. -/
def setHelper (hs : Helpers) (registry helper : String) : Helpers :=
  (registry, helper) :: envDel hs registry

/-- Result of driving one auth generator to completion: final environment and
docker helper map, the environment at the yield point (`none` when the
generator never yielded), whether `sts.assume_role` was invoked, and the
exception that escaped (`none` on normal completion). -/
structure Outcome where
  env : Env
  helpers : Helpers
  yieldEnv : Option Env
  stsCalled : Bool
  err : Option PyError
deriving DecidableEq, Repr

/-- A `finally` clause replaces the in-flight exception when it raises one
itself; otherwise the in-flight exception (if any) continues. -/
def finallyMergeErr (bodyErr finErr : Option PyError) : Option PyError :=
  match finErr with
  | some e => some e
  | none => bodyErr

/-- The error (if any) produced by the protected work. -/
def workErrOf (raised : Bool) : Option PyError :=
  if raised then some .workError else none

/-- The service-key side of the AWS `finally` clauses:
`unset_env_var("AWS_SHARED_CREDENTIALS_FILE", original_credential_file_loc)`.
The original value is a Python local that is unassigned (`none` here) when
the `try` body raised before capturing it, in which case referencing it
raises an UnboundLocalError. -/
def awsKeyFinally (e : Env) (original : Option (Option String)) :
    Env × Option PyError :=
  match original with
  | none => (e, some (.unboundLocal "original_credential_file_loc"))
  | some old =>
    match unset_env_var "AWS_SHARED_CREDENTIALS_FILE" old e with
    | .error err => (e, some err)
    | .ok e2 => (e2, none)

/-- The role side of the AWS `finally` clauses: three `unset_env_var` calls
in sequence, each of which first evaluates a Python local that may be
unassigned.  Execution stops (and the partial environment is kept) at the
first exception. -/
def awsRoleFinally (e : Env)
    (origAccess origSecret origToken : Option (Option String)) :
    Env × Option PyError :=
  match origAccess with
  | none => (e, some (.unboundLocal "original_access_key_id"))
  | some o1 =>
    match unset_env_var "AWS_ACCESS_KEY_ID" o1 e with
    | .error err => (e, some err)
    | .ok e1 =>
      match origSecret with
      | none => (e1, some (.unboundLocal "original_secret_access_key"))
      | some o2 =>
        match unset_env_var "AWS_SECRET_ACCESS_KEY" o2 e1 with
        | .error err => (e1, some err)
        | .ok e2 =>
          match origToken with
          | none => (e2, some (.unboundLocal "original_session_token"))
          | some o3 =>
            match unset_env_var "AWS_SESSION_TOKEN" o3 e2 with
            | .error err => (e2, some err)
            | .ok e3 => (e3, none)

/-- An outcome in which the generator raised `e` before yielding, leaving the
environment and helper map untouched. -/
def raisedBeforeYield (env0 : Env) (helpers0 : Helpers) (e : PyError) :
    Outcome :=
  { env := env0, helpers := helpers0, yieldEnv := none, stsCalled := false,
    err := some e }

/-- `auth.registry_auth_gcloud`: resolve the service key, activate the
service account, configure docker, then yield. -/
def registry_auth_gcloud (w : World) (work : Work)
    (deployment project service_key : String)
    (env0 : Env) (helpers0 : Helpers) : Outcome :=
  match (decrypt_file w (secretPath deployment service_key)).res with
  | .error e => raisedBeforeYield env0 helpers0 e
  | .ok decrypted_service_key_path =>
    if !w.run ["gcloud", "auth", "activate-service-account",
        "--key-file", abspath w decrypted_service_key_path] then
      raisedBeforeYield env0 helpers0 .calledProcessError
    else if !w.run ["gcloud", "auth", "configure-docker"] then
      raisedBeforeYield env0 helpers0 .calledProcessError
    else
      let wr := work env0
      { env := wr.1, helpers := helpers0, yieldEnv := some env0,
        stsCalled := false, err := workErrOf wr.2 }

/-- `auth.registry_auth_aws`: require a service key or a role, then either
point `AWS_SHARED_CREDENTIALS_FILE` at the key and register the ECR
credential helper, or assume the role and export the credential triple;
yield; `finally` unset what was set. -/
def registry_auth_aws (w : World) (work : Work)
    (deployment project zone : String)
    (service_key role_arn : Option String)
    (env0 : Env) (helpers0 : Helpers) : Outcome :=
  if !truthy service_key && !truthy role_arn then
    raisedBeforeYield env0 helpers0
      (.exc "AWS authentication requires either a service key or the use of a role")
  else
    let registry := project ++ ".dkr.ecr." ++ zone ++ ".amazonaws.com"
    if truthy service_key then
      let service_key_path := secretPath deployment (service_key.getD "")
      if !w.fileExists service_key_path then
        -- FileNotFoundError fires before original_credential_file_loc is
        -- assigned, so the finally clause raises UnboundLocalError over it
        let fin := awsKeyFinally env0 none
        { env := fin.1, helpers := helpers0, yieldEnv := none,
          stsCalled := false,
          err := finallyMergeErr (some (.fileNotFound service_key_path)) fin.2 }
      else
        let original_credential_file_loc := envGet env0 "AWS_SHARED_CREDENTIALS_FILE"
        let env1 := envSet env0 "AWS_SHARED_CREDENTIALS_FILE" service_key_path
        let helpers1 := setHelper helpers0 registry "ecr-login"
        let wr := work env1
        let fin := awsKeyFinally wr.1 (some original_credential_file_loc)
        { env := fin.1, helpers := helpers1, yieldEnv := some env1,
          stsCalled := false,
          err := finallyMergeErr (workErrOf wr.2) fin.2 }
    else
      match w.stsAssumeRole (role_arn.getD "") "registry" with
      | .error msg =>
        -- assume_role raised before the three originals were assigned, so
        -- the finally clause raises UnboundLocalError over the first one
        let fin := awsRoleFinally env0 none none none
        { env := fin.1, helpers := helpers0, yieldEnv := none,
          stsCalled := true,
          err := finallyMergeErr (some (.clientError msg)) fin.2 }
      | .ok creds =>
        let original_access_key_id := envGet env0 "AWS_ACCESS_KEY_ID"
        let original_secret_access_key := envGet env0 "AWS_SECRET_ACCESS_KEY"
        let original_session_token := envGet env0 "AWS_SESSION_TOKEN"
        let env1 :=
          envSet (envSet (envSet env0 "AWS_ACCESS_KEY_ID" creds.accessKeyId)
            "AWS_SECRET_ACCESS_KEY" creds.secretAccessKey)
            "AWS_SESSION_TOKEN" creds.sessionToken
        let wr := work env1
        let fin := awsRoleFinally wr.1 (some original_access_key_id)
          (some original_secret_access_key) (some original_session_token)
        { env := fin.1, helpers := helpers0, yieldEnv := some env1,
          stsCalled := true,
          err := finallyMergeErr (workErrOf wr.2) fin.2 }

/-- `auth.registry_auth_azure`: parse the auth file, `az login`, `az acr
login`, then yield. -/
def registry_auth_azure (w : World) (work : Work)
    (deployment resource_group registry auth_file : String)
    (env0 : Env) (helpers0 : Helpers) : Outcome :=
  match w.azureAuth (secretPath deployment auth_file) with
  | .error e => raisedBeforeYield env0 helpers0 e
  | .ok auth =>
    if !w.run ["az", "login", "--service-principal",
        "--user", auth.appId, "--tenant", auth.tenant,
        "--password", auth.password] then
      raisedBeforeYield env0 helpers0 .calledProcessError
    else if !w.run ["az", "acr", "login", "--name", registry] then
      raisedBeforeYield env0 helpers0 .calledProcessError
    else
      let wr := work env0
      { env := wr.1, helpers := helpers0, yieldEnv := some env0,
        stsCalled := false, err := workErrOf wr.2 }

/-- `auth.cluster_auth_gcloud`: resolve the service key, activate the
service account, fetch cluster credentials, then yield. -/
def cluster_auth_gcloud (w : World) (work : Work)
    (deployment project cluster zone service_key : String)
    (env0 : Env) (helpers0 : Helpers) : Outcome :=
  match (decrypt_file w (secretPath deployment service_key)).res with
  | .error e => raisedBeforeYield env0 helpers0 e
  | .ok decrypted_service_key_path =>
    if !w.run ["gcloud", "auth", "activate-service-account",
        "--key-file", abspath w decrypted_service_key_path] then
      raisedBeforeYield env0 helpers0 .calledProcessError
    else if !w.run ["gcloud", "container", "clusters",
        "--zone=" ++ zone, "--project=" ++ project,
        "get-credentials", cluster] then
      raisedBeforeYield env0 helpers0 .calledProcessError
    else
      let wr := work env0
      { env := wr.1, helpers := helpers0, yieldEnv := some env0,
        stsCalled := false, err := workErrOf wr.2 }

/-- `auth.cluster_auth_aws`: same guard and service-key/role split as the
registry strategy, then `aws eks update-kubeconfig`, yield, and the same
`finally` clauses. -/
def cluster_auth_aws (w : World) (work : Work)
    (deployment project cluster zone : String)
    (service_key role_arn : Option String)
    (env0 : Env) (helpers0 : Helpers) : Outcome :=
  if !truthy service_key && !truthy role_arn then
    raisedBeforeYield env0 helpers0
      (.exc "AWS authentication requires either a service key or the use of a role")
  else
    if truthy service_key then
      let service_key_path := secretPath deployment (service_key.getD "")
      let original_credential_file_loc := envGet env0 "AWS_SHARED_CREDENTIALS_FILE"
      let env1 := envSet env0 "AWS_SHARED_CREDENTIALS_FILE" service_key_path
      if !w.run ["aws", "eks", "update-kubeconfig",
          "--name", cluster, "--region", zone] then
        let fin := awsKeyFinally env1 (some original_credential_file_loc)
        { env := fin.1, helpers := helpers0, yieldEnv := none,
          stsCalled := false,
          err := finallyMergeErr (some .calledProcessError) fin.2 }
      else
        let wr := work env1
        let fin := awsKeyFinally wr.1 (some original_credential_file_loc)
        { env := fin.1, helpers := helpers0, yieldEnv := some env1,
          stsCalled := false,
          err := finallyMergeErr (workErrOf wr.2) fin.2 }
    else
      match w.stsAssumeRole (role_arn.getD "") "cluster" with
      | .error msg =>
        let fin := awsRoleFinally env0 none none none
        { env := fin.1, helpers := helpers0, yieldEnv := none,
          stsCalled := true,
          err := finallyMergeErr (some (.clientError msg)) fin.2 }
      | .ok creds =>
        let original_access_key_id := envGet env0 "AWS_ACCESS_KEY_ID"
        let original_secret_access_key := envGet env0 "AWS_SECRET_ACCESS_KEY"
        let original_session_token := envGet env0 "AWS_SESSION_TOKEN"
        let env1 :=
          envSet (envSet (envSet env0 "AWS_ACCESS_KEY_ID" creds.accessKeyId)
            "AWS_SECRET_ACCESS_KEY" creds.secretAccessKey)
            "AWS_SESSION_TOKEN" creds.sessionToken
        if !w.run ["aws", "eks", "update-kubeconfig",
            "--name", cluster, "--region", zone] then
          let fin := awsRoleFinally env1 (some original_access_key_id)
            (some original_secret_access_key) (some original_session_token)
          { env := fin.1, helpers := helpers0, yieldEnv := none,
            stsCalled := true,
            err := finallyMergeErr (some .calledProcessError) fin.2 }
        else
          let wr := work env1
          let fin := awsRoleFinally wr.1 (some original_access_key_id)
            (some original_secret_access_key) (some original_session_token)
          { env := fin.1, helpers := helpers0, yieldEnv := some env1,
            stsCalled := true,
            err := finallyMergeErr (workErrOf wr.2) fin.2 }

/-- `auth.cluster_auth_azure`: parse the auth file, `az login`, `az aks
get-credentials`, then yield. -/
def cluster_auth_azure (w : World) (work : Work)
    (deployment resource_group cluster auth_file : String)
    (env0 : Env) (helpers0 : Helpers) : Outcome :=
  match w.azureAuth (secretPath deployment auth_file) with
  | .error e => raisedBeforeYield env0 helpers0 e
  | .ok auth =>
    if !w.run ["az", "login", "--service-principal",
        "--user", auth.appId, "--tenant", auth.tenant,
        "--password", auth.password] then
      raisedBeforeYield env0 helpers0 .calledProcessError
    else if !w.run ["az", "aks", "get-credentials",
        "--name", cluster, "--resource-group", resource_group] then
      raisedBeforeYield env0 helpers0 .calledProcessError
    else
      let wr := work env0
      { env := wr.1, helpers := helpers0, yieldEnv := some env0,
        stsCalled := false, err := workErrOf wr.2 }

/-- A generator that returns without yielding: `contextlib.contextmanager`
raises `RuntimeError` when the with-statement enters it. -/
def didNotYield (env0 : Env) (helpers0 : Helpers) : Outcome :=
  { env := env0, helpers := helpers0, yieldEnv := none, stsCalled := false,
    err := some (.runtimeError "generator did not yield") }

/-- `auth.registry_auth`: on `push or check_registry`, load the config and
dispatch on `images.registry.provider`; when the `images.registry` subtree is
absent the generator body falls through without yielding.  Without
`push or check_registry` it yields immediately. -/
def registry_auth (w : World) (work : Work) (deployment : String)
    (push check_registry : Bool)
    (env0 : Env) (helpers0 : Helpers) : Outcome :=
  if push || check_registry then
    let config := w.getConfig deployment
    match config.images with
    | none => didNotYield env0 helpers0
    | some images =>
      match images.registry with
      | none => didNotYield env0 helpers0
      | some registry =>
        match registry.provider with
        | some "gcloud" =>
          match registry.gcloud with
          | none => raisedBeforeYield env0 helpers0 (.keyError "gcloud")
          | some p =>
            registry_auth_gcloud w work deployment p.project p.service_key
              env0 helpers0
        | some "aws" =>
          match registry.aws with
          | none => raisedBeforeYield env0 helpers0 (.keyError "aws")
          | some p =>
            registry_auth_aws w work deployment p.project p.zone
              p.service_key p.role_arn env0 helpers0
        | some "azure" =>
          match registry.azure with
          | none => raisedBeforeYield env0 helpers0 (.keyError "azure")
          | some p =>
            registry_auth_azure w work deployment p.resource_group p.registry
              p.auth_file env0 helpers0
        | _ =>
          raisedBeforeYield env0 helpers0
            (.valueError "Unknown provider found in hubploy.yaml")
  else
    let wr := work env0
    { env := wr.1, helpers := helpers0, yieldEnv := some env0,
      stsCalled := false, err := workErrOf wr.2 }

/-- The provider dispatch inside `cluster_auth`: the body of its `try`
block, run on the environment in which `KUBECONFIG` already points at the
temporary file. -/
def cluster_dispatch (w : World) (work : Work) (deployment : String)
    (cluster : ClusterConfig) (env1 : Env) (helpers0 : Helpers) : Outcome :=
  match cluster.provider with
  | some "gcloud" =>
    match cluster.gcloud with
    | none => raisedBeforeYield env1 helpers0 (.keyError "gcloud")
    | some p =>
      cluster_auth_gcloud w work deployment p.project p.cluster p.zone
        p.service_key env1 helpers0
  | some "aws" =>
    match cluster.aws with
    | none => raisedBeforeYield env1 helpers0 (.keyError "aws")
    | some p =>
      cluster_auth_aws w work deployment p.project p.cluster p.zone
        p.service_key p.role_arn env1 helpers0
  | some "azure" =>
    match cluster.azure with
    | none => raisedBeforeYield env1 helpers0 (.keyError "azure")
    | some p =>
      cluster_auth_azure w work deployment p.resource_group p.cluster
        p.auth_file env1 helpers0
  | _ =>
    raisedBeforeYield env1 helpers0
      (.valueError "Unknown provider found in hubploy.yaml")

/-- `auth.cluster_auth`: when the `cluster` subtree exists, create a fresh
temporary kubeconfig, capture the old `KUBECONFIG`, point `KUBECONFIG` at the
temporary file, dispatch on the provider inside a `try`, and `finally` call
`unset_env_var("KUBECONFIG", orig_kubeconfig)`.  Without a `cluster` subtree
the generator body ends without yielding. -/
def cluster_auth (w : World) (work : Work) (deployment : String)
    (env0 : Env) (helpers0 : Helpers) : Outcome :=
  let config := w.getConfig deployment
  match config.cluster with
  | none => didNotYield env0 helpers0
  | some cluster =>
    let orig_kubeconfig := envGet env0 "KUBECONFIG"
    let env1 := envSet env0 "KUBECONFIG" w.kubeTmpName
    let inner := cluster_dispatch w work deployment cluster env1 helpers0
    match unset_env_var "KUBECONFIG" orig_kubeconfig inner.env with
    | .error e => { inner with err := some e }
    | .ok env2 => { inner with env := env2 }

/-! ### Basic facts about the environment model -/

/-- The five environment variables the auth calls may touch. -/
def authVars : List String :=
  ["AWS_SHARED_CREDENTIALS_FILE", "AWS_ACCESS_KEY_ID",
   "AWS_SECRET_ACCESS_KEY", "AWS_SESSION_TOKEN", "KUBECONFIG"]

/-- The protected work may transform the environment, but leaves the five
auth variables as it found them. -/
def PreservesAuthVars (work : Work) : Prop :=
  ∀ e k, k ∈ authVars → envGet ((work e).1) k = envGet e k

/-- The parser `decrypt_file` applies to a path with a supported extension:
`json.load` for `.json`, `yaml.load` for `.yaml` / `.yml`. -/
def parseFor (w : World) (path : String) : ParseOutcome :=
  if extOf path = ".json" then w.jsonParse path else w.yamlParse path

/-! ### Concrete fixtures -/

/-- Protected work that leaves the environment alone and returns normally. -/
def workNormal : Work := fun e => (e, false)

/-- Protected work that leaves the environment alone and raises. -/
def workRaise : Work := fun e => (e, true)

/-- A fixed credential triple for the STS oracle. -/
def credsDemo : Creds :=
  { accessKeyId := "AKIDEMO", secretAccessKey := "SECRETDEMO",
    sessionToken := "TOKENDEMO" }

/-- A world in which every external operation succeeds and the configuration
is empty. -/
def wBase : World :=
  { getConfig := fun _ => {}
    fileExists := fun _ => true
    run := fun _ => true
    stsAssumeRole := fun _ _ => .ok credsDemo
    yamlParse := fun _ => .doc false
    jsonParse := fun _ => .doc false
    azureAuth := fun _ => .ok { appId := "app", tenant := "ten", password := "pw" }
    sopsTmpName := "/tmp/sops-plain"
    kubeTmpName := "/tmp/kubeconfig-tmp"
    cwd := "/work" }

/-- A world in which the STS role-assumption call fails. -/
def wStsFail : World :=
  { wBase with stsAssumeRole := fun _ _ => .error "AccessDenied on AssumeRole" }

/-- An `aws` cluster parameter bag using a role. -/
def awsClusterRole : AwsCluster :=
  { project := "p", cluster := "c1", zone := "us-east-1",
    service_key := none, role_arn := some "arn:aws:iam::123:role/x" }

/-- A configuration whose `cluster` subtree selects the aws provider with a
role. -/
def cfgClusterAwsRole : Config :=
  { cluster := some { provider := some "aws", aws := some awsClusterRole } }

/-- A world whose configuration is `cfgClusterAwsRole`. -/
def wClusterAwsRole : World :=
  { wBase with getConfig := fun _ => cfgClusterAwsRole }

/-- A world whose yaml files all carry a top-level `sops` key. -/
def wSops : World := { wBase with yamlParse := fun _ => .doc true }

/-- A world whose yaml files fail to parse with an exception the source does
not catch (a ruamel ParserError rather than a ScannerError). -/
def wParserFail : World :=
  { wBase with yamlParse := fun _ =>
      .otherError (.parserError "while parsing a block mapping: expected block end") }

theorem envGet_envDel_self (e : Env) (k : String) :
    envGet (envDel e k) k = none := by
  induction e with
  | nil => rfl
  | cons p t ih =>
    by_cases h : p.1 = k <;> simp [envDel, envGet, h, ih]

theorem envGet_envDel_ne (e : Env) (k k2 : String) (h : k2 ≠ k) :
    envGet (envDel e k) k2 = envGet e k2 := by
  induction e with
  | nil => rfl
  | cons p t ih =>
    by_cases hp : p.1 = k
    · subst hp
      simp [envDel, envGet, Ne.symm h, ih]
    · simp only [envDel, if_neg hp, envGet]
      by_cases hq : p.1 = k2 <;> simp [hq, ih]

theorem envGet_envSet_self (e : Env) (k v : String) :
    envGet (envSet e k v) k = some v := by
  simp [envSet, envGet]

theorem envGet_envSet_ne (e : Env) (k v k2 : String) (h : k2 ≠ k) :
    envGet (envSet e k v) k2 = envGet e k2 := by
  simp only [envSet, envGet, if_neg (Ne.symm h)]
  exact envGet_envDel_ne e k k2 h

theorem restoreEnv_get_self (k : String) (old : Option String) (e : Env) :
    envGet (restoreEnv k old e) k = old := by
  cases old <;> simp [restoreEnv, envGet_envSet_self, envGet_envDel_self]

theorem restoreEnv_get_ne (k : String) (old : Option String) (e : Env)
    (k2 : String) (h : k2 ≠ k) :
    envGet (restoreEnv k old e) k2 = envGet e k2 := by
  cases old with
  | none => exact envGet_envDel_ne e k k2 h
  | some v =>
    show envGet (envSet (envDel e k) k v) k2 = envGet e k2
    rw [envGet_envSet_ne _ _ _ _ h, envGet_envDel_ne e k k2 h]

theorem unset_env_var_present (k : String) (old : Option String) (e : Env)
    (x : String) (h : envGet e k = some x) :
    unset_env_var k old e = .ok (restoreEnv k old e) := by
  unfold unset_env_var
  rw [h]

theorem unset_env_var_absent (k : String) (old : Option String) (e : Env)
    (h : envGet e k = none) :
    unset_env_var k old e = .error (.keyError k) := by
  unfold unset_env_var
  rw [h]

theorem awsKeyFinally_ok (e : Env) (old : Option String) (x : String)
    (h : envGet e "AWS_SHARED_CREDENTIALS_FILE" = some x) :
    awsKeyFinally e (some old) =
      (restoreEnv "AWS_SHARED_CREDENTIALS_FILE" old e, none) := by
  simp only [awsKeyFinally]
  rw [unset_env_var_present _ _ _ _ h]

theorem awsRoleFinally_ok (e : Env) (o1 o2 o3 : Option String)
    (x1 x2 x3 : String)
    (h1 : envGet e "AWS_ACCESS_KEY_ID" = some x1)
    (h2 : envGet e "AWS_SECRET_ACCESS_KEY" = some x2)
    (h3 : envGet e "AWS_SESSION_TOKEN" = some x3) :
    awsRoleFinally e (some o1) (some o2) (some o3) =
      (restoreEnv "AWS_SESSION_TOKEN" o3
        (restoreEnv "AWS_SECRET_ACCESS_KEY" o2
          (restoreEnv "AWS_ACCESS_KEY_ID" o1 e)), none) := by
  have h2a : envGet (restoreEnv "AWS_ACCESS_KEY_ID" o1 e)
      "AWS_SECRET_ACCESS_KEY" = some x2 := by
    rw [restoreEnv_get_ne _ _ _ _ (by decide)]
    exact h2
  have h3a : envGet (restoreEnv "AWS_SECRET_ACCESS_KEY" o2
      (restoreEnv "AWS_ACCESS_KEY_ID" o1 e)) "AWS_SESSION_TOKEN" = some x3 := by
    rw [restoreEnv_get_ne _ _ _ _ (by decide),
      restoreEnv_get_ne _ _ _ _ (by decide)]
    exact h3
  simp only [awsRoleFinally, unset_env_var_present _ _ _ _ h1,
    unset_env_var_present _ _ _ _ h2a, unset_env_var_present _ _ _ _ h3a]

/-- Reading any key out of the environment produced by the role-path
`finally` clause. -/
theorem envGet_restore3 (e : Env) (o1 o2 o3 : Option String) (k : String) :
    envGet (restoreEnv "AWS_SESSION_TOKEN" o3
      (restoreEnv "AWS_SECRET_ACCESS_KEY" o2
        (restoreEnv "AWS_ACCESS_KEY_ID" o1 e))) k =
    if k = "AWS_SESSION_TOKEN" then o3
    else if k = "AWS_SECRET_ACCESS_KEY" then o2
    else if k = "AWS_ACCESS_KEY_ID" then o1
    else envGet e k := by
  by_cases h3 : k = "AWS_SESSION_TOKEN"
  · subst h3
    simp [restoreEnv_get_self]
  · rw [restoreEnv_get_ne _ _ _ _ h3, if_neg h3]
    by_cases h2 : k = "AWS_SECRET_ACCESS_KEY"
    · subst h2
      simp [restoreEnv_get_self]
    · rw [restoreEnv_get_ne _ _ _ _ h2, if_neg h2]
      by_cases h1 : k = "AWS_ACCESS_KEY_ID"
      · subst h1
        simp [restoreEnv_get_self]
      · rw [restoreEnv_get_ne _ _ _ _ h1, if_neg h1]

/-- Reading any key out of the environment produced by the role-path
credential export. -/
theorem envGet_set3 (e : Env) (a s t : String) (k : String) :
    envGet (envSet (envSet (envSet e "AWS_ACCESS_KEY_ID" a)
      "AWS_SECRET_ACCESS_KEY" s) "AWS_SESSION_TOKEN" t) k =
    if k = "AWS_SESSION_TOKEN" then some t
    else if k = "AWS_SECRET_ACCESS_KEY" then some s
    else if k = "AWS_ACCESS_KEY_ID" then some a
    else envGet e k := by
  by_cases h3 : k = "AWS_SESSION_TOKEN"
  · subst h3
    simp [envGet_envSet_self]
  · rw [envGet_envSet_ne _ _ _ _ h3, if_neg h3]
    by_cases h2 : k = "AWS_SECRET_ACCESS_KEY"
    · subst h2
      simp [envGet_envSet_self]
    · rw [envGet_envSet_ne _ _ _ _ h2, if_neg h2]
      by_cases h1 : k = "AWS_ACCESS_KEY_ID"
      · subst h1
        simp [envGet_envSet_self]
      · rw [envGet_envSet_ne _ _ _ _ h1, if_neg h1]

/-! ### Per-strategy environment preservation -/

theorem mem_sharedCred : "AWS_SHARED_CREDENTIALS_FILE" ∈ authVars := by
  simp [authVars]

theorem mem_accessKey : "AWS_ACCESS_KEY_ID" ∈ authVars := by
  simp [authVars]

theorem mem_secretKey : "AWS_SECRET_ACCESS_KEY" ∈ authVars := by
  simp [authVars]

theorem mem_sessionToken : "AWS_SESSION_TOKEN" ∈ authVars := by
  simp [authVars]

theorem mem_kubeconfig : "KUBECONFIG" ∈ authVars := by
  simp [authVars]

theorem registry_auth_gcloud_env (w : World) (work : Work)
    (deployment project service_key : String) (env0 : Env) (h0 : Helpers)
    (hw : PreservesAuthVars work) (k : String) (hk : k ∈ authVars) :
    envGet (registry_auth_gcloud w work deployment project service_key
      env0 h0).env k = envGet env0 k := by
  unfold registry_auth_gcloud
  split
  · simp [raisedBeforeYield]
  · split
    · simp [raisedBeforeYield]
    · split
      · simp [raisedBeforeYield]
      · exact hw env0 k hk

theorem registry_auth_azure_env (w : World) (work : Work)
    (deployment resource_group registry auth_file : String)
    (env0 : Env) (h0 : Helpers)
    (hw : PreservesAuthVars work) (k : String) (hk : k ∈ authVars) :
    envGet (registry_auth_azure w work deployment resource_group registry
      auth_file env0 h0).env k = envGet env0 k := by
  unfold registry_auth_azure
  split
  · simp [raisedBeforeYield]
  · split
    · simp [raisedBeforeYield]
    · split
      · simp [raisedBeforeYield]
      · exact hw env0 k hk

theorem cluster_auth_gcloud_env (w : World) (work : Work)
    (deployment project cluster zone service_key : String)
    (env0 : Env) (h0 : Helpers)
    (hw : PreservesAuthVars work) (k : String) (hk : k ∈ authVars) :
    envGet (cluster_auth_gcloud w work deployment project cluster zone
      service_key env0 h0).env k = envGet env0 k := by
  unfold cluster_auth_gcloud
  split
  · simp [raisedBeforeYield]
  · split
    · simp [raisedBeforeYield]
    · split
      · simp [raisedBeforeYield]
      · exact hw env0 k hk

theorem cluster_auth_azure_env (w : World) (work : Work)
    (deployment resource_group cluster auth_file : String)
    (env0 : Env) (h0 : Helpers)
    (hw : PreservesAuthVars work) (k : String) (hk : k ∈ authVars) :
    envGet (cluster_auth_azure w work deployment resource_group cluster
      auth_file env0 h0).env k = envGet env0 k := by
  unfold cluster_auth_azure
  split
  · simp [raisedBeforeYield]
  · split
    · simp [raisedBeforeYield]
    · split
      · simp [raisedBeforeYield]
      · exact hw env0 k hk

theorem registry_auth_aws_env (w : World) (work : Work)
    (deployment project zone : String) (service_key role_arn : Option String)
    (env0 : Env) (h0 : Helpers)
    (hw : PreservesAuthVars work) (k : String) (hk : k ∈ authVars) :
    envGet (registry_auth_aws w work deployment project zone service_key
      role_arn env0 h0).env k = envGet env0 k := by
  simp only [registry_auth_aws]
  split
  · simp [raisedBeforeYield]
  · split
    · -- service-key branch
      split
      · -- service-key file missing
        simp [awsKeyFinally]
      · -- service-key main path
        have hpres : envGet (work (envSet env0 "AWS_SHARED_CREDENTIALS_FILE"
            (secretPath deployment (service_key.getD "")))).1
            "AWS_SHARED_CREDENTIALS_FILE"
            = some (secretPath deployment (service_key.getD "")) := by
          rw [hw _ _ mem_sharedCred, envGet_envSet_self]
        simp only [awsKeyFinally_ok _ _ _ hpres]
        by_cases hkk : k = "AWS_SHARED_CREDENTIALS_FILE"
        · subst hkk
          rw [restoreEnv_get_self]
        · rw [restoreEnv_get_ne _ _ _ _ hkk, hw _ _ hk,
            envGet_envSet_ne _ _ _ _ hkk]
    · -- role branch
      split
      · -- assume_role failed
        simp [awsRoleFinally]
      · -- role main path
        rename_i creds heq
        have hA : envGet (work (envSet (envSet (envSet env0
            "AWS_ACCESS_KEY_ID" creds.accessKeyId)
            "AWS_SECRET_ACCESS_KEY" creds.secretAccessKey)
            "AWS_SESSION_TOKEN" creds.sessionToken)).1 "AWS_ACCESS_KEY_ID"
            = some creds.accessKeyId := by
          rw [hw _ _ mem_accessKey, envGet_envSet_ne _ _ _ _ (by decide),
            envGet_envSet_ne _ _ _ _ (by decide), envGet_envSet_self]
        have hS : envGet (work (envSet (envSet (envSet env0
            "AWS_ACCESS_KEY_ID" creds.accessKeyId)
            "AWS_SECRET_ACCESS_KEY" creds.secretAccessKey)
            "AWS_SESSION_TOKEN" creds.sessionToken)).1 "AWS_SECRET_ACCESS_KEY"
            = some creds.secretAccessKey := by
          rw [hw _ _ mem_secretKey, envGet_envSet_ne _ _ _ _ (by decide),
            envGet_envSet_self]
        have hT : envGet (work (envSet (envSet (envSet env0
            "AWS_ACCESS_KEY_ID" creds.accessKeyId)
            "AWS_SECRET_ACCESS_KEY" creds.secretAccessKey)
            "AWS_SESSION_TOKEN" creds.sessionToken)).1 "AWS_SESSION_TOKEN"
            = some creds.sessionToken := by
          rw [hw _ _ mem_sessionToken, envGet_envSet_self]
        simp only [awsRoleFinally_ok _ _ _ _ _ _ _ hA hS hT]
        rw [envGet_restore3]
        by_cases h3 : k = "AWS_SESSION_TOKEN"
        · subst h3
          simp
        · rw [if_neg h3]
          by_cases h2 : k = "AWS_SECRET_ACCESS_KEY"
          · subst h2
            simp
          · rw [if_neg h2]
            by_cases h1 : k = "AWS_ACCESS_KEY_ID"
            · subst h1
              simp
            · rw [if_neg h1, hw _ _ hk, envGet_envSet_ne _ _ _ _ h3,
                envGet_envSet_ne _ _ _ _ h2, envGet_envSet_ne _ _ _ _ h1]

theorem cluster_auth_aws_env (w : World) (work : Work)
    (deployment project cluster zone : String)
    (service_key role_arn : Option String)
    (env0 : Env) (h0 : Helpers)
    (hw : PreservesAuthVars work) (k : String) (hk : k ∈ authVars) :
    envGet (cluster_auth_aws w work deployment project cluster zone
      service_key role_arn env0 h0).env k = envGet env0 k := by
  have hset : envGet (envSet env0 "AWS_SHARED_CREDENTIALS_FILE"
      (secretPath deployment (service_key.getD "")))
      "AWS_SHARED_CREDENTIALS_FILE"
      = some (secretPath deployment (service_key.getD "")) :=
    envGet_envSet_self _ _ _
  simp only [cluster_auth_aws]
  split
  · simp [raisedBeforeYield]
  · split
    · -- service-key branch
      split
      · -- eks update-kubeconfig failed: unwind the shared-credentials var
        simp only [awsKeyFinally_ok _ _ _ hset]
        by_cases hkk : k = "AWS_SHARED_CREDENTIALS_FILE"
        · subst hkk
          rw [restoreEnv_get_self]
        · rw [restoreEnv_get_ne _ _ _ _ hkk, envGet_envSet_ne _ _ _ _ hkk]
      · -- service-key main path
        have hpres : envGet (work (envSet env0 "AWS_SHARED_CREDENTIALS_FILE"
            (secretPath deployment (service_key.getD "")))).1
            "AWS_SHARED_CREDENTIALS_FILE"
            = some (secretPath deployment (service_key.getD "")) := by
          rw [hw _ _ mem_sharedCred]
          exact hset
        simp only [awsKeyFinally_ok _ _ _ hpres]
        by_cases hkk : k = "AWS_SHARED_CREDENTIALS_FILE"
        · subst hkk
          rw [restoreEnv_get_self]
        · rw [restoreEnv_get_ne _ _ _ _ hkk, hw _ _ hk,
            envGet_envSet_ne _ _ _ _ hkk]
    · -- role branch
      split
      · -- assume_role failed
        simp [awsRoleFinally]
      · -- role assumed; the three credential vars are exported
        rename_i creds heq
        have hA1 : envGet (envSet (envSet (envSet env0
            "AWS_ACCESS_KEY_ID" creds.accessKeyId)
            "AWS_SECRET_ACCESS_KEY" creds.secretAccessKey)
            "AWS_SESSION_TOKEN" creds.sessionToken) "AWS_ACCESS_KEY_ID"
            = some creds.accessKeyId := by
          rw [envGet_envSet_ne _ _ _ _ (by decide),
            envGet_envSet_ne _ _ _ _ (by decide), envGet_envSet_self]
        have hS1 : envGet (envSet (envSet (envSet env0
            "AWS_ACCESS_KEY_ID" creds.accessKeyId)
            "AWS_SECRET_ACCESS_KEY" creds.secretAccessKey)
            "AWS_SESSION_TOKEN" creds.sessionToken) "AWS_SECRET_ACCESS_KEY"
            = some creds.secretAccessKey := by
          rw [envGet_envSet_ne _ _ _ _ (by decide), envGet_envSet_self]
        have hT1 : envGet (envSet (envSet (envSet env0
            "AWS_ACCESS_KEY_ID" creds.accessKeyId)
            "AWS_SECRET_ACCESS_KEY" creds.secretAccessKey)
            "AWS_SESSION_TOKEN" creds.sessionToken) "AWS_SESSION_TOKEN"
            = some creds.sessionToken := envGet_envSet_self _ _ _
        split
        · -- eks update-kubeconfig failed: unwind the three vars
          simp only [awsRoleFinally_ok _ _ _ _ _ _ _ hA1 hS1 hT1]
          rw [envGet_restore3]
          by_cases h3 : k = "AWS_SESSION_TOKEN"
          · subst h3
            simp
          · rw [if_neg h3]
            by_cases h2 : k = "AWS_SECRET_ACCESS_KEY"
            · subst h2
              simp
            · rw [if_neg h2]
              by_cases h1 : k = "AWS_ACCESS_KEY_ID"
              · subst h1
                simp
              · rw [if_neg h1, envGet_envSet_ne _ _ _ _ h3,
                  envGet_envSet_ne _ _ _ _ h2, envGet_envSet_ne _ _ _ _ h1]
        · -- role main path
          have hA : envGet (work (envSet (envSet (envSet env0
              "AWS_ACCESS_KEY_ID" creds.accessKeyId)
              "AWS_SECRET_ACCESS_KEY" creds.secretAccessKey)
              "AWS_SESSION_TOKEN" creds.sessionToken)).1 "AWS_ACCESS_KEY_ID"
              = some creds.accessKeyId := by
            rw [hw _ _ mem_accessKey]
            exact hA1
          have hS : envGet (work (envSet (envSet (envSet env0
              "AWS_ACCESS_KEY_ID" creds.accessKeyId)
              "AWS_SECRET_ACCESS_KEY" creds.secretAccessKey)
              "AWS_SESSION_TOKEN" creds.sessionToken)).1 "AWS_SECRET_ACCESS_KEY"
              = some creds.secretAccessKey := by
            rw [hw _ _ mem_secretKey]
            exact hS1
          have hT : envGet (work (envSet (envSet (envSet env0
              "AWS_ACCESS_KEY_ID" creds.accessKeyId)
              "AWS_SECRET_ACCESS_KEY" creds.secretAccessKey)
              "AWS_SESSION_TOKEN" creds.sessionToken)).1 "AWS_SESSION_TOKEN"
              = some creds.sessionToken := by
            rw [hw _ _ mem_sessionToken]
            exact hT1
          simp only [awsRoleFinally_ok _ _ _ _ _ _ _ hA hS hT]
          rw [envGet_restore3]
          by_cases h3 : k = "AWS_SESSION_TOKEN"
          · subst h3
            simp
          · rw [if_neg h3]
            by_cases h2 : k = "AWS_SECRET_ACCESS_KEY"
            · subst h2
              simp
            · rw [if_neg h2]
              by_cases h1 : k = "AWS_ACCESS_KEY_ID"
              · subst h1
                simp
              · rw [if_neg h1, hw _ _ hk, envGet_envSet_ne _ _ _ _ h3,
                  envGet_envSet_ne _ _ _ _ h2, envGet_envSet_ne _ _ _ _ h1]

theorem cluster_dispatch_env (w : World) (work : Work) (deployment : String)
    (cluster : ClusterConfig) (env1 : Env) (h0 : Helpers)
    (hw : PreservesAuthVars work) (k : String) (hk : k ∈ authVars) :
    envGet (cluster_dispatch w work deployment cluster env1 h0).env k
      = envGet env1 k := by
  unfold cluster_dispatch
  split
  · split
    · simp [raisedBeforeYield]
    · exact cluster_auth_gcloud_env w work deployment _ _ _ _ env1 h0 hw k hk
  · split
    · simp [raisedBeforeYield]
    · exact cluster_auth_aws_env w work deployment _ _ _ _ _ env1 h0 hw k hk
  · split
    · simp [raisedBeforeYield]
    · exact cluster_auth_azure_env w work deployment _ _ _ env1 h0 hw k hk
  · simp [raisedBeforeYield]

theorem registry_auth_env (w : World) (work : Work) (deployment : String)
    (push check_registry : Bool) (env0 : Env) (h0 : Helpers)
    (hw : PreservesAuthVars work) (k : String) (hk : k ∈ authVars) :
    envGet (registry_auth w work deployment push check_registry
      env0 h0).env k = envGet env0 k := by
  simp only [registry_auth]
  split
  · split
    · simp [didNotYield]
    · split
      · simp [didNotYield]
      · split
        · split
          · simp [raisedBeforeYield]
          · exact registry_auth_gcloud_env w work deployment _ _ env0 h0 hw k hk
        · split
          · simp [raisedBeforeYield]
          · exact registry_auth_aws_env w work deployment _ _ _ _ env0 h0 hw k hk
        · split
          · simp [raisedBeforeYield]
          · exact registry_auth_azure_env w work deployment _ _ _ env0 h0 hw k hk
        · simp [raisedBeforeYield]
  · exact hw env0 k hk

theorem cluster_auth_env (w : World) (work : Work) (deployment : String)
    (env0 : Env) (h0 : Helpers)
    (hw : PreservesAuthVars work) (k : String) (hk : k ∈ authVars) :
    envGet (cluster_auth w work deployment env0 h0).env k = envGet env0 k := by
  simp only [cluster_auth]
  split
  · simp [didNotYield]
  · rename_i cluster heq
    have hkube : envGet (cluster_dispatch w work deployment cluster
        (envSet env0 "KUBECONFIG" w.kubeTmpName) h0).env "KUBECONFIG"
        = some w.kubeTmpName := by
      rw [cluster_dispatch_env w work deployment cluster _ h0 hw _ mem_kubeconfig,
        envGet_envSet_self]
    simp only [unset_env_var_present _ _ _ _ hkube]
    by_cases hkk : k = "KUBECONFIG"
    · subst hkk
      rw [restoreEnv_get_self]
    · rw [restoreEnv_get_ne _ _ _ _ hkk,
        cluster_dispatch_env w work deployment cluster _ h0 hw k hk,
        envGet_envSet_ne _ _ _ _ hkk]

/-! ### The environment visible at the yield point -/

theorem cluster_auth_gcloud_yieldEnv (w : World) (work : Work)
    (deployment project cluster zone service_key : String)
    (env0 : Env) (h0 : Helpers) (e2 : Env)
    (h : (cluster_auth_gcloud w work deployment project cluster zone
      service_key env0 h0).yieldEnv = some e2) :
    envGet e2 "KUBECONFIG" = envGet env0 "KUBECONFIG" := by
  unfold cluster_auth_gcloud at h
  split at h
  · simp [raisedBeforeYield] at h
  · split at h
    · simp [raisedBeforeYield] at h
    · split at h
      · simp [raisedBeforeYield] at h
      · simp only [Option.some.injEq] at h
        subst h
        rfl

theorem cluster_auth_azure_yieldEnv (w : World) (work : Work)
    (deployment resource_group cluster auth_file : String)
    (env0 : Env) (h0 : Helpers) (e2 : Env)
    (h : (cluster_auth_azure w work deployment resource_group cluster
      auth_file env0 h0).yieldEnv = some e2) :
    envGet e2 "KUBECONFIG" = envGet env0 "KUBECONFIG" := by
  unfold cluster_auth_azure at h
  split at h
  · simp [raisedBeforeYield] at h
  · split at h
    · simp [raisedBeforeYield] at h
    · split at h
      · simp [raisedBeforeYield] at h
      · simp only [Option.some.injEq] at h
        subst h
        rfl

theorem cluster_auth_aws_yieldEnv (w : World) (work : Work)
    (deployment project cluster zone : String)
    (service_key role_arn : Option String)
    (env0 : Env) (h0 : Helpers) (e2 : Env)
    (h : (cluster_auth_aws w work deployment project cluster zone
      service_key role_arn env0 h0).yieldEnv = some e2) :
    envGet e2 "KUBECONFIG" = envGet env0 "KUBECONFIG" := by
  simp only [cluster_auth_aws] at h
  split at h
  · simp [raisedBeforeYield] at h
  · split at h
    · split at h
      · simp at h
      · simp only [Option.some.injEq] at h
        subst h
        exact envGet_envSet_ne _ _ _ _ (by decide)
    · split at h
      · simp at h
      · split at h
        · simp at h
        · simp only [Option.some.injEq] at h
          subst h
          rw [envGet_envSet_ne _ _ _ _ (by decide),
            envGet_envSet_ne _ _ _ _ (by decide),
            envGet_envSet_ne _ _ _ _ (by decide)]

theorem cluster_dispatch_yieldEnv (w : World) (work : Work)
    (deployment : String) (cluster : ClusterConfig)
    (env1 : Env) (h0 : Helpers) (e2 : Env)
    (h : (cluster_dispatch w work deployment cluster env1 h0).yieldEnv
      = some e2) :
    envGet e2 "KUBECONFIG" = envGet env1 "KUBECONFIG" := by
  unfold cluster_dispatch at h
  split at h
  · split at h
    · simp [raisedBeforeYield] at h
    · exact cluster_auth_gcloud_yieldEnv w work deployment _ _ _ _ env1 h0 e2 h
  · split at h
    · simp [raisedBeforeYield] at h
    · exact cluster_auth_aws_yieldEnv w work deployment _ _ _ _ _ env1 h0 e2 h
  · split at h
    · simp [raisedBeforeYield] at h
    · exact cluster_auth_azure_yieldEnv w work deployment _ _ _ env1 h0 e2 h
  · simp [raisedBeforeYield] at h

theorem cluster_auth_yieldEnv (w : World) (work : Work) (deployment : String)
    (env0 : Env) (h0 : Helpers) (e2 : Env)
    (h : (cluster_auth w work deployment env0 h0).yieldEnv = some e2) :
    envGet e2 "KUBECONFIG" = some w.kubeTmpName := by
  simp only [cluster_auth] at h
  split at h
  · simp [didNotYield] at h
  · rename_i cluster heq
    have hy : (cluster_dispatch w work deployment cluster
        (envSet env0 "KUBECONFIG" w.kubeTmpName) h0).yieldEnv = some e2 := by
      split at h <;> exact h
    rw [cluster_dispatch_yieldEnv w work deployment cluster _ h0 e2 hy,
      envGet_envSet_self]

/-! ### Claims -/

/-- C1: after a scoped auth call (`registry_auth` or `cluster_auth`) exits,
whether the protected work returns normally or raises, every one of the five
environment variables the call may set (`AWS_SHARED_CREDENTIALS_FILE`,
`AWS_ACCESS_KEY_ID`, `AWS_SECRET_ACCESS_KEY`, `AWS_SESSION_TOKEN`,
`KUBECONFIG`) equals its pre-call state exactly: same value if it existed,
absent again if it did not. -/
theorem C1_env_restored_after_auth (w : World) (work : Work)
    (deployment : String) (push check_registry : Bool)
    (env0 : Env) (h0 : Helpers)
    (hw : PreservesAuthVars work) (k : String) (hk : k ∈ authVars) :
    envGet (registry_auth w work deployment push check_registry
      env0 h0).env k = envGet env0 k ∧
    envGet (cluster_auth w work deployment env0 h0).env k = envGet env0 k :=
  ⟨registry_auth_env w work deployment push check_registry env0 h0 hw k hk,
   cluster_auth_env w work deployment env0 h0 hw k hk⟩

theorem C1_env_restored_after_auth_witness :
    envGet (registry_auth wClusterAwsRole workRaise "d" true false
      [("KUBECONFIG", "/home/u/.kube/config")] []).env "KUBECONFIG"
      = envGet [("KUBECONFIG", "/home/u/.kube/config")] "KUBECONFIG" ∧
    envGet (cluster_auth wClusterAwsRole workRaise "d"
      [("KUBECONFIG", "/home/u/.kube/config")] []).env "KUBECONFIG"
      = envGet [("KUBECONFIG", "/home/u/.kube/config")] "KUBECONFIG" :=
  C1_env_restored_after_auth wClusterAwsRole workRaise "d" true false
    [("KUBECONFIG", "/home/u/.kube/config")] [] (fun _ _ _ => rfl)
    "KUBECONFIG" (by decide)

/-- C3: when a `cluster` subtree exists, `cluster_auth` sets `KUBECONFIG` to
the freshly created temporary file before dispatching (the environment
observed at the yield point maps `KUBECONFIG` to the temporary name), and on
every exit path restores `KUBECONFIG` to its prior value, or removes it if it
was absent before the call. -/
theorem C3_kubeconfig_redirect_and_restore (w : World) (work : Work)
    (deployment : String) (env0 : Env) (h0 : Helpers)
    (hw : PreservesAuthVars work) :
    envGet (cluster_auth w work deployment env0 h0).env "KUBECONFIG"
      = envGet env0 "KUBECONFIG" ∧
    ∀ e2, (cluster_auth w work deployment env0 h0).yieldEnv = some e2 →
      envGet e2 "KUBECONFIG" = some w.kubeTmpName :=
  ⟨cluster_auth_env w work deployment env0 h0 hw _ mem_kubeconfig,
   fun e2 h => cluster_auth_yieldEnv w work deployment env0 h0 e2 h⟩

theorem C3_kubeconfig_redirect_and_restore_witness :
    envGet (cluster_auth wClusterAwsRole workNormal "d" [] []).env "KUBECONFIG"
      = envGet ([] : Env) "KUBECONFIG" ∧
    envGet [("AWS_SESSION_TOKEN", "TOKENDEMO"),
      ("AWS_SECRET_ACCESS_KEY", "SECRETDEMO"),
      ("AWS_ACCESS_KEY_ID", "AKIDEMO"),
      ("KUBECONFIG", "/tmp/kubeconfig-tmp")] "KUBECONFIG"
      = some wClusterAwsRole.kubeTmpName :=
  ⟨(C3_kubeconfig_redirect_and_restore wClusterAwsRole workNormal "d" [] []
      (fun _ _ _ => rfl)).1,
   (C3_kubeconfig_redirect_and_restore wClusterAwsRole workNormal "d" [] []
      (fun _ _ _ => rfl)).2
     [("AWS_SESSION_TOKEN", "TOKENDEMO"),
      ("AWS_SECRET_ACCESS_KEY", "SECRETDEMO"),
      ("AWS_ACCESS_KEY_ID", "AKIDEMO"),
      ("KUBECONFIG", "/tmp/kubeconfig-tmp")] (by decide)⟩

/-- C4: the claim says a failing role-assumption call propagates to the
caller as-is, as the single error describing the root cause.  In the code,
when `assume_role` raises, the `finally` clause references the never-assigned
locals holding the original variable values, so an UnboundLocalError from
cleanup replaces the root-cause client error in both AWS strategies (the
environment is nevertheless left untouched). -/
theorem C4_role_failure_masked_by_cleanup_error :
    (registry_auth_aws wStsFail workNormal "d" "p" "z" none
      (some "arn:aws:iam::123:role/x") [] []).err
      = some (.unboundLocal "original_access_key_id") ∧
    (registry_auth_aws wStsFail workNormal "d" "p" "z" none
      (some "arn:aws:iam::123:role/x") [] []).env = [] ∧
    (cluster_auth_aws wStsFail workNormal "d" "p" "c1" "z" none
      (some "arn:aws:iam::123:role/x") [] []).err
      = some (.unboundLocal "original_access_key_id") ∧
    (cluster_auth_aws wStsFail workNormal "d" "p" "c1" "z" none
      (some "arn:aws:iam::123:role/x") [] []).env = [] ∧
    wStsFail.stsAssumeRole "arn:aws:iam::123:role/x" "registry"
      = .error "AccessDenied on AssumeRole" := by
  decide

/-- C5: with neither a service key nor a role supplied, both AWS strategies
raise the configuration error before any mutation: the outcome carries the
entry environment and helper map verbatim, never yields and never calls
STS. -/
theorem C5_aws_guard_before_any_mutation (w : World) (work : Work)
    (deployment project cluster zone : String)
    (service_key role_arn : Option String) (env0 : Env) (h0 : Helpers)
    (hsk : truthy service_key = false) (hra : truthy role_arn = false) :
    registry_auth_aws w work deployment project zone service_key role_arn
      env0 h0 = raisedBeforeYield env0 h0
        (.exc "AWS authentication requires either a service key or the use of a role") ∧
    cluster_auth_aws w work deployment project cluster zone service_key
      role_arn env0 h0 = raisedBeforeYield env0 h0
        (.exc "AWS authentication requires either a service key or the use of a role") := by
  constructor
  · simp [registry_auth_aws, hsk, hra]
  · simp [cluster_auth_aws, hsk, hra]

theorem C5_aws_guard_before_any_mutation_witness :
    registry_auth_aws wBase workNormal "d" "p" "z" none none
      [("AWS_SESSION_TOKEN", "t")] [("r", "h")] = raisedBeforeYield
        [("AWS_SESSION_TOKEN", "t")] [("r", "h")]
        (.exc "AWS authentication requires either a service key or the use of a role") ∧
    cluster_auth_aws wBase workNormal "d" "p" "c1" "z" none none
      [("AWS_SESSION_TOKEN", "t")] [("r", "h")] = raisedBeforeYield
        [("AWS_SESSION_TOKEN", "t")] [("r", "h")]
        (.exc "AWS authentication requires either a service key or the use of a role") :=
  C5_aws_guard_before_any_mutation wBase workNormal "d" "p" "c1" "z"
    none none [("AWS_SESSION_TOKEN", "t")] [("r", "h")] rfl rfl

/-- C9: with no `cluster` subtree in the configuration, the `cluster_auth`
generator body completes without ever yielding, so entering the with-block
raises a RuntimeError instead of yielding control (and nothing is
mutated). -/
theorem C9_missing_cluster_is_runtime_error (w : World) (work : Work)
    (deployment : String) (env0 : Env) (h0 : Helpers)
    (hc : (w.getConfig deployment).cluster = none) :
    cluster_auth w work deployment env0 h0 = didNotYield env0 h0 := by
  simp [cluster_auth, hc]

theorem C9_missing_cluster_is_runtime_error_witness :
    cluster_auth wBase workNormal "d" [("KUBECONFIG", "/k")] []
      = didNotYield [("KUBECONFIG", "/k")] [] :=
  C9_missing_cluster_is_runtime_error wBase workNormal "d"
    [("KUBECONFIG", "/k")] [] rfl

/-- C2 (counterexample): with push requested and a configuration lacking the
`images.registry` subtree, `registry_auth` is not a silent no-op: it never
yields and exits with a RuntimeError, contradicting the claim that it yields
control and completes without raising. -/
theorem C2_missing_registry_counterexample :
    (registry_auth wBase workNormal "d" true false [] []).err
      = some (.runtimeError "generator did not yield") ∧
    (registry_auth wBase workNormal "d" true false [] []).yieldEnv = none := by
  decide

/-- C2 (amended): when push or check_registry is requested and the loaded
configuration has no `images.registry` subtree, the `registry_auth`
generator body completes without yielding, so entering the with-block raises
a RuntimeError; no authentication and no state mutation is performed. -/
theorem C2_missing_registry_raises (w : World) (work : Work)
    (deployment : String) (push check_registry : Bool)
    (env0 : Env) (h0 : Helpers)
    (hpc : (push || check_registry) = true)
    (hreg : ((w.getConfig deployment).images.bind fun i => i.registry) = none) :
    registry_auth w work deployment push check_registry env0 h0
      = didNotYield env0 h0 := by
  rcases himg : (w.getConfig deployment).images with _ | i
  · simp [registry_auth, hpc, himg]
  · have hr : i.registry = none := by
      rw [himg] at hreg
      simpa using hreg
    simp [registry_auth, hpc, himg, hr]

theorem C2_missing_registry_raises_witness :
    registry_auth wBase workNormal "d" true false [("KUBECONFIG", "/k")] []
      = didNotYield [("KUBECONFIG", "/k")] [] :=
  C2_missing_registry_raises wBase workNormal "d" true false
    [("KUBECONFIG", "/k")] [] rfl rfl

/-- C10: `unset_env_var` unconditionally deletes the key before optionally
restoring the old value: when the key is present the result is
delete-then-restore, and when the key is absent at restore time it raises a
KeyError instead of restoring. -/
theorem C10_unset_env_var_requires_presence (k : String)
    (old : Option String) (e : Env) :
    (envGet e k = none →
      unset_env_var k old e = .error (.keyError k)) ∧
    (∀ x, envGet e k = some x →
      unset_env_var k old e = .ok (restoreEnv k old e)) :=
  ⟨fun h => unset_env_var_absent k old e h,
   fun x h => unset_env_var_present k old e x h⟩

theorem C10_unset_env_var_requires_presence_witness :
    unset_env_var "AWS_SESSION_TOKEN" (some "old") []
      = .error (.keyError "AWS_SESSION_TOKEN") ∧
    unset_env_var "AWS_SESSION_TOKEN" (some "old") [("AWS_SESSION_TOKEN", "new")]
      = .ok (restoreEnv "AWS_SESSION_TOKEN" (some "old")
          [("AWS_SESSION_TOKEN", "new")]) :=
  ⟨(C10_unset_env_var_requires_presence "AWS_SESSION_TOKEN" (some "old") []).1
      rfl,
   (C10_unset_env_var_requires_presence "AWS_SESSION_TOKEN" (some "old")
      [("AWS_SESSION_TOKEN", "new")]).2 "new" rfl⟩

theorem decrypt_file_supported (w : World) (path : String)
    (hext : extOf path = ".yaml" ∨ extOf path = ".yml" ∨
      extOf path = ".json") :
    decrypt_file w path =
      match parseFor w path with
      | .parseError => { res := .ok path, sopsCalled := false }
      | .otherError e => { res := .error e, sopsCalled := false }
      | .doc hasSops =>
        if hasSops then
          if w.run ["sops", "--output", w.sopsTmpName, "--decrypt", path] then
            { res := .ok w.sopsTmpName, sopsCalled := true }
          else
            { res := .error .calledProcessError, sopsCalled := true }
        else
          { res := .ok path, sopsCalled := false } := by
  obtain h | h | h := hext <;> simp [decrypt_file, parseFor, h]

/-- C6 (counterexample): a `.yaml` path whose parse fails with an exception
the source does not catch (a ruamel ParserError, not a ScannerError) makes
`decrypt_file` raise instead of yielding the original path with no error:
the claim that every parse failure yields the original path is false. -/
theorem C6_uncaught_parse_error_counterexample :
    (decrypt_file wParserFail "deployments/d/secrets/k.yaml").res
      = .error (.parserError "while parsing a block mapping: expected block end") ∧
    (decrypt_file wParserFail "deployments/d/secrets/k.yaml").res
      ≠ .ok "deployments/d/secrets/k.yaml" := by
  decide

/-- C6 (amended): for a path with a `.yaml`, `.yml` or `.json` extension,
`decrypt_file` yields the original path with no error when the file parses
but has no top-level `sops` key, and when parsing fails with the one
exception class the code catches for that extension (`ScannerError` for
yaml, `JSONDecodeError` for json); a parse failure raising any other
exception propagates out of `decrypt_file` without yielding; the external
decryption tool is invoked exactly when parsing succeeds with a `sops` key
present, in which case (the tool succeeding) it yields the fresh temporary
file instead. -/
theorem C6_decrypt_file_dispatch_amended (w : World) (path : String)
    (hext : extOf path = ".yaml" ∨ extOf path = ".yml" ∨
      extOf path = ".json") :
    (parseFor w path = .parseError →
      decrypt_file w path = { res := .ok path, sopsCalled := false }) ∧
    (parseFor w path = .doc false →
      decrypt_file w path = { res := .ok path, sopsCalled := false }) ∧
    (∀ e, parseFor w path = .otherError e →
      decrypt_file w path = { res := .error e, sopsCalled := false }) ∧
    (parseFor w path = .doc true →
      w.run ["sops", "--output", w.sopsTmpName, "--decrypt", path] = true →
      decrypt_file w path = { res := .ok w.sopsTmpName, sopsCalled := true }) ∧
    ((decrypt_file w path).sopsCalled = true ↔ parseFor w path = .doc true) := by
  have hred := decrypt_file_supported w path hext
  refine ⟨?_, ?_, ?_, ?_, ?_⟩
  · intro hp
    rw [hred, hp]
  · intro hp
    rw [hred, hp]
    simp
  · intro e hp
    rw [hred, hp]
  · intro hp hrun
    rw [hred, hp]
    simp [hrun]
  · rw [hred]
    rcases hp : parseFor w path with _ | e | b
    · simp
    · simp
    · rcases b
      · simp
      · rcases hr : w.run ["sops", "--output", w.sopsTmpName, "--decrypt", path]
          <;> simp [hr]

theorem C6_decrypt_file_dispatch_amended_witness :
    decrypt_file wSops "deployments/d/secrets/k.yaml"
      = { res := .ok wSops.sopsTmpName, sopsCalled := true } ∧
    decrypt_file wParserFail "deployments/d/secrets/k.yaml"
      = { res := .error
            (.parserError "while parsing a block mapping: expected block end"),
          sopsCalled := false } :=
  ⟨((C6_decrypt_file_dispatch_amended wSops "deployments/d/secrets/k.yaml"
      (by decide)).2.2.2.1) rfl rfl,
   ((C6_decrypt_file_dispatch_amended wParserFail "deployments/d/secrets/k.yaml"
      (by decide)).2.2.1)
     (.parserError "while parsing a block mapping: expected block end") rfl⟩

/-- C7: for a path whose extension is not `.yaml`, `.yml` or `.json`,
`decrypt_file` raises (the local holding parsed data is never assigned, so
the `sops`-membership test raises a NameError) rather than yielding any
path, and the decryption tool is never invoked. -/
theorem C7_decrypt_file_unsupported_ext (w : World) (path : String)
    (h1 : extOf path ≠ ".yaml") (h2 : extOf path ≠ ".yml")
    (h3 : extOf path ≠ ".json") :
    decrypt_file w path
      = { res := .error (.unboundLocal "encrypted_data"),
          sopsCalled := false } := by
  simp [decrypt_file, h1, h2, h3]

theorem C7_decrypt_file_unsupported_ext_witness :
    decrypt_file wBase "deployments/d/secrets/aws-creds.txt"
      = { res := .error (.unboundLocal "encrypted_data"),
          sopsCalled := false } :=
  C7_decrypt_file_unsupported_ext wBase "deployments/d/secrets/aws-creds.txt"
    (by decide) (by decide) (by decide)

/-- C8: in both AWS strategies, supplying a service key and a role together
is accepted and the service-key branch wins: STS is never called, the
environment at the yield point maps `AWS_SHARED_CREDENTIALS_FILE` to the key
path, and every other variable — in particular the three role credential
variables — is exactly as it was on entry. -/
theorem C8_both_supplied_takes_service_key (w : World) (work : Work)
    (deployment project cluster zone : String)
    (service_key role_arn : Option String) (env0 : Env) (h0 : Helpers)
    (hsk : truthy service_key = true) (hra : truthy role_arn = true)
    (hfile : w.fileExists (secretPath deployment (service_key.getD "")) = true)
    (heks : w.run ["aws", "eks", "update-kubeconfig",
      "--name", cluster, "--region", zone] = true) :
    (registry_auth_aws w work deployment project zone service_key role_arn
      env0 h0).stsCalled = false ∧
    (cluster_auth_aws w work deployment project cluster zone service_key
      role_arn env0 h0).stsCalled = false ∧
    (registry_auth_aws w work deployment project zone service_key role_arn
      env0 h0).yieldEnv = some (envSet env0 "AWS_SHARED_CREDENTIALS_FILE"
        (secretPath deployment (service_key.getD ""))) ∧
    (cluster_auth_aws w work deployment project cluster zone service_key
      role_arn env0 h0).yieldEnv = some (envSet env0
        "AWS_SHARED_CREDENTIALS_FILE"
        (secretPath deployment (service_key.getD ""))) ∧
    envGet (envSet env0 "AWS_SHARED_CREDENTIALS_FILE"
        (secretPath deployment (service_key.getD "")))
        "AWS_SHARED_CREDENTIALS_FILE"
      = some (secretPath deployment (service_key.getD "")) ∧
    ∀ k, k ≠ "AWS_SHARED_CREDENTIALS_FILE" →
      envGet (envSet env0 "AWS_SHARED_CREDENTIALS_FILE"
        (secretPath deployment (service_key.getD ""))) k = envGet env0 k := by
  refine ⟨?_, ?_, ?_, ?_, envGet_envSet_self _ _ _,
    fun k hk => envGet_envSet_ne _ _ _ _ hk⟩
  · simp [registry_auth_aws, hsk, hfile]
  · simp [cluster_auth_aws, hsk, heks]
  · simp [registry_auth_aws, hsk, hfile]
  · simp [cluster_auth_aws, hsk, heks]

theorem C8_both_supplied_takes_service_key_witness :
    (registry_auth_aws wBase workNormal "d" "p" "z" (some "key.json")
      (some "arn:aws:iam::123:role/x") [] []).stsCalled = false ∧
    (cluster_auth_aws wBase workNormal "d" "p" "c1" "z" (some "key.json")
      (some "arn:aws:iam::123:role/x") [] []).stsCalled = false ∧
    (registry_auth_aws wBase workNormal "d" "p" "z" (some "key.json")
      (some "arn:aws:iam::123:role/x") [] []).yieldEnv
      = some (envSet [] "AWS_SHARED_CREDENTIALS_FILE"
        (secretPath "d" ((some "key.json").getD ""))) ∧
    (cluster_auth_aws wBase workNormal "d" "p" "c1" "z" (some "key.json")
      (some "arn:aws:iam::123:role/x") [] []).yieldEnv
      = some (envSet [] "AWS_SHARED_CREDENTIALS_FILE"
        (secretPath "d" ((some "key.json").getD ""))) ∧
    envGet (envSet [] "AWS_SHARED_CREDENTIALS_FILE"
        (secretPath "d" ((some "key.json").getD "")))
        "AWS_SHARED_CREDENTIALS_FILE"
      = some (secretPath "d" ((some "key.json").getD "")) ∧
    ∀ k, k ≠ "AWS_SHARED_CREDENTIALS_FILE" →
      envGet (envSet [] "AWS_SHARED_CREDENTIALS_FILE"
        (secretPath "d" ((some "key.json").getD ""))) k = envGet [] k :=
  C8_both_supplied_takes_service_key wBase workNormal "d" "p" "c1" "z"
    (some "key.json") (some "arn:aws:iam::123:role/x") [] []
    rfl rfl rfl rfl

end Hubploy
